import Mathlib

set_option maxRecDepth 10000

/-!
Shallow embedding of the webhook-proxy core (QQ Bot adapter, Ed25519 utility,
and the dispatch pipeline routes) for checking the specification's claims.

Sources embedded:
- the Ed25519 utility (`src/utils/ed25519.ts`): hex codecs, secret
  stretching, `Ed25519.sign`, `Ed25519.verify`;
- the QQ Bot adapter (`src/adapters/qqbot.ts`): `QQBotAdapter.verifySignature`,
  `transform`, `handleWebhook`, `handleVerification`, `handleDispatch`,
  `createAckResponse`;
- the webhook routes (`src/packages/core/src/routes/webhook.ts`): the
  `POST /:platform/:randomKey` handler, `broadcastEvent`, and the
  `GET /:platform/:randomKey/:connectionType` handler.

Conventions of the embedding:
- JavaScript strings are modelled by Lean `String` (a list of unicode scalar
  values); `TextEncoder.encode` is modelled by a faithful UTF-8 encoder
  producing a `List Nat` of bytes.
- JavaScript's dynamically typed JSON values are modelled by the inductive
  `Json` below, with an explicit `jundefined` for `undefined` (the result of a
  missing property access).
- Thrown exceptions are modelled with `Except`; the distinction between
  `SyntaxError`, `TypeError` and other errors (which the route's catch block
  inspects) is the inductive `JsError`.
- `Date.now()` is an ambient effect and is passed in as an explicit `now`
  argument where the source calls it.
- A request body is parsed up to three times by the source (adapter, route,
  broadcast task), always from the same preserved text, so the request model
  carries the single shared outcome of `JSON.parse(body)`.
-/

/-! Json value model -/

/-- A JavaScript JSON-ish value. `jundefined` models `undefined`, which arises
from missing-property access and is distinct from `null`. -/
inductive Json where
  | jnull : Json
  | jundefined : Json
  | jbool : Bool → Json
  | jnum : Int → Json
  | jstr : String → Json
  | jarr : List Json → Json
  | jobj : List (String × Json) → Json
deriving Repr

/-- JavaScript truthiness: `null`, `undefined`, `false`, `0` and `""` are
falsy; every other value (including any array or object) is truthy. -/
def Json.truthy : Json → Bool
  | .jnull => false
  | .jundefined => false
  | .jbool b => b
  | .jnum n => n != 0
  | .jstr s => s != ""
  | .jarr _ => true
  | .jobj _ => true

/-- First-match association-list lookup in an object's fields; a missing key
reads as `undefined`. -/
def fieldLookup : List (String × Json) → String → Json
  | [], _ => .jundefined
  | (k', v) :: rest, k => if k' = k then v else fieldLookup rest k

/-- Property access `j[k]` on a value known not to be `null`/`undefined`
(JavaScript boxes primitives, so reading a named property off a number,
string, boolean or array yields `undefined`; callers handle the throwing
`null`/`undefined` cases themselves). -/
def Json.get (j : Json) (k : String) : Json :=
  match j with
  | .jobj fs => fieldLookup fs k
  | _ => .jundefined

/-- Strict equality `j === n` against a number literal. -/
def Json.isNum (j : Json) (k : Int) : Bool :=
  match j with
  | .jnum m => m == k
  | _ => false

/-- True for `null` and `undefined`: exactly the values on which property
access or `.toString()` throws a `TypeError`. -/
def Json.nullish : Json → Bool
  | .jnull => true
  | .jundefined => true
  | _ => false

mutual
/-- JavaScript `String(v)` / template-literal stringification. -/
def jsString : Json → String
  | .jnull => "null"
  | .jundefined => "undefined"
  | .jbool b => if b then "true" else "false"
  | .jnum n => toString n
  | .jstr s => s
  | .jarr xs => jsStringList xs
  | .jobj _ => "[object Object]"

/-- The `Array.prototype.toString` join: elements separated by commas. -/
def jsStringList : List Json → String
  | [] => ""
  | [x] => jsStringElem x
  | x :: rest => jsStringElem x ++ "," ++ jsStringList rest

/-- Inside an array join, `null` and `undefined` render as the empty string. -/
def jsStringElem : Json → String
  | .jnull => ""
  | .jundefined => ""
  | j => jsString j
end

/-! UTF-8 encoding, the model of `TextEncoder.encode` -/

/-- UTF-8 encoding of one unicode scalar value. -/
def utf8Char (c : Char) : List Nat :=
  let n := c.toNat
  if n < 0x80 then [n]
  else if n < 0x800 then [0xC0 + n / 64, 0x80 + n % 64]
  else if n < 0x10000 then
    [0xE0 + n / 4096, 0x80 + n / 64 % 64, 0x80 + n % 64]
  else
    [0xF0 + n / 262144, 0x80 + n / 4096 % 64, 0x80 + n / 64 % 64, 0x80 + n % 64]

/-- Model of `new TextEncoder().encode(s)`: the UTF-8 bytes of a string. -/
def encodeUTF8 (s : String) : List Nat :=
  s.data.flatMap utf8Char

/-! Hex codecs from the Ed25519 utility: `hexToBytes` and `bytesToHex` -/

/-- The hex digit character for `n < 16`, lower case
(the digits of `b.toString(16)`). -/
def hexDigitChar (n : Nat) : Char :=
  if n < 10 then Char.ofNat (48 + n) else Char.ofNat (87 + n)

/-- One byte rendered as `b.toString(16).padStart(2, '0')` for `b < 256`. -/
def byteHexChars (b : Nat) : List Char :=
  [hexDigitChar (b / 16), hexDigitChar (b % 16)]

/-- Hex encoding `bytesToHex`: each byte rendered as two lower-case hex
digits, joined. -/
def bytesToHex (bs : List Nat) : String :=
  String.mk (bs.flatMap byteHexChars)

/-- Numeric value of a hex digit character (either case), or `none`. -/
def hexVal (c : Char) : Option Nat :=
  let n := c.toNat
  if 48 ≤ n ∧ n ≤ 57 then some (n - 48)
  else if 97 ≤ n ∧ n ≤ 102 then some (n - 87)
  else if 65 ≤ n ∧ n ≤ 70 then some (n - 55)
  else none

/-- The whitespace characters skipped by `String.prototype.trim` and
`parseInt` (the common ASCII ones; exotic unicode spaces are not used by any
input in scope). -/
def isJsSpace (c : Char) : Bool :=
  c = ' ' ∨ c = '\t' ∨ c = '\n' ∨ c = '\r' ∨ c = '\x0b' ∨ c = '\x0c'

/-- JavaScript `s.trim()`: strip leading and trailing whitespace. -/
def trimChars (l : List Char) : List Char :=
  ((l.dropWhile isJsSpace).reverse.dropWhile isJsSpace).reverse

/-- JavaScript `s.replace(/^0x/, '')`: drop one leading literal `0x`
(lower-case `x` only). -/
def dropHex0x : List Char → List Char
  | '0' :: 'x' :: rest => rest
  | l => l

/-- Greedy hex-digit run for `parseInt(·, 16)`: `none` when no leading digit
(NaN), otherwise the value of the longest digit prefix. -/
def parseHexRun : List Char → Option Nat
  | [] => none
  | c :: rest =>
    match hexVal c with
    | none => none
    | some v => some (parseHexRunAux v rest)
where
  parseHexRunAux (acc : Nat) : List Char → Nat
    | [] => acc
    | c :: rest =>
      match hexVal c with
      | none => acc
      | some v => parseHexRunAux (16 * acc + v) rest

/-- Model of `parseInt(str, 16)` on a (two-character) chunk: skip leading
whitespace, allow a sign and a `0x`/`0X` prefix, then read hex digits;
`none` is NaN. -/
def parseIntHex (l : List Char) : Option Int :=
  match l.dropWhile isJsSpace with
  | '-' :: rest => (parseHexRun rest).map (fun n => -(n : Int))
  | '+' :: rest => (parseHexRun rest).map Int.ofNat
  | '0' :: 'x' :: rest => (parseHexRun rest).map Int.ofNat
  | '0' :: 'X' :: rest => (parseHexRun rest).map Int.ofNat
  | l' => (parseHexRun l').map Int.ofNat

/-- Storing a parsed chunk into a `Uint8Array` slot: NaN stores 0, and any
other number is reduced modulo 256 (ECMAScript ToUint8). -/
def toUint8 : Option Int → Nat
  | none => 0
  | some i => (i % 256).toNat

/-- The parse loop of `hexToBytes`: one byte per two-character chunk. -/
def parsePairs : List Char → List Nat
  | c1 :: c2 :: rest => toUint8 (parseIntHex [c1, c2]) :: parsePairs rest
  | _ => []

/-- Hex decoding `hexToBytes`: strip a `0x` prefix, trim, reject odd length
(a thrown error), then parse two characters per byte. -/
def hexToBytes (hex : String) : Except String (List Nat) :=
  let cs := trimChars (dropHex0x hex.data)
  if cs.length % 2 ≠ 0 then
    .error "Hex string must have an even number of characters"
  else
    .ok (parsePairs cs)

/-! Ed25519 primitive of the `tweetnacl` library.

The library the source dynamically imports is an external dependency, not
part of this repository's sources, so it is modelled from the spec (§4.1):
an asymmetric scheme with a deterministic key pair derived from a fixed
32-byte seed, idealized as a deterministic signature scheme. -/

/-- Modelled from the spec: a derived key pair of the external `tweetnacl`
library. In the idealized model both halves coincide with the seed, making
signing and verification use the same derived key. -/
structure KeyPair where
  publicKey : List Nat
  secretKey : List Nat
deriving Repr

/-- Modelled from the spec: `nacl.sign.keyPair.fromSeed` of the external
`tweetnacl` library requires the fixed 32-byte seed the spec's derivation
contract names, and throws on any other length. -/
def naclFromSeed (seed : List Nat) : Except String KeyPair :=
  if seed.length = 32 then .ok ⟨seed, seed⟩ else .error "bad seed size"

/-- Modelled from the spec: `nacl.sign.detached` of the external `tweetnacl`
library, idealized as a deterministic 64-byte code over the message under
the key (a keyed digest; every byte is reduced mod 256). -/
def naclDetached (msg sk : List Nat) : List Nat :=
  (List.range 64).map
    (fun i => (msg ++ sk).foldl (fun a b => (a * 31 + b + 7) % 256) (i % 256))

/-- Modelled from the spec: `nacl.sign.detached.verify` of the external
`tweetnacl` library accepts exactly the signature of the message under the
key the public key was derived from. -/
def naclDetachedVerify (msg sig pk : List Nat) : Bool :=
  sig == naclDetached msg pk

/-! Ed25519 class of the Ed25519 utility -/

/-- The stretch loop body, fuelled (the source's
`while (secret.length < 32) secret = secret.repeat(2).slice(0, 32)`; each
iteration doubles a nonempty secret, so 32 rounds of fuel are more than
enough; on the empty secret the source loop would never terminate, a case
the adapter's constructor guard excludes). -/
def stretchAux : Nat → String → String
  | 0, s => s
  | fuel + 1, s =>
    if s.length < 32 then stretchAux fuel ((s ++ s).take 32) else s

/-- The secret-stretching step shared verbatim by `Ed25519.sign` and
`Ed25519.verify`. -/
def Ed25519.stretch (secret : String) : String :=
  stretchAux 32 secret

/-- Method `Ed25519.sign(message)`: stretch the secret, UTF-8 encode it as
the seed, derive the key pair (a thrown `bad seed size` is re-thrown by the
source's catch), sign the UTF-8 bytes of the message and hex-encode the
result. -/
def Ed25519.sign (secret message : String) : Except String String :=
  let seedBytes := encodeUTF8 (Ed25519.stretch secret)
  match naclFromSeed seedBytes with
  | .error e => .error e
  | .ok keyPair =>
    .ok (bytesToHex (naclDetached (encodeUTF8 message) keyPair.secretKey))

/-- Method `Ed25519.verify(signature, message)`: same derivation; any thrown
error (bad seed, odd hex) is caught and returns `false`; a decoded signature
whose length is not exactly 64 bytes is rejected before verification. -/
def Ed25519.verify (secret signature message : String) : Bool :=
  let seedBytes := encodeUTF8 (Ed25519.stretch secret)
  match naclFromSeed seedBytes with
  | .error _ => false
  | .ok keyPair =>
    match hexToBytes signature with
    | .error _ => false
    | .ok signatureBytes =>
      if signatureBytes.length ≠ 64 then false
      else naclDetachedVerify (encodeUTF8 message) signatureBytes keyPair.publicKey

/-! HTTP request and response model -/

/-- A response body: the routes answer either with plain text (`c.text`,
`new Response('...')`) or with a JSON document (`JSON.stringify` of a value,
kept structured here). -/
inductive RBody where
  | text : String → RBody
  | json : Json → RBody
deriving Repr

/-- An HTTP response, reduced to the observables the claims speak about
(status and body; content-type headers are omitted). -/
structure Response where
  status : Nat
  body : RBody
deriving Repr

/-- An inbound request as the adapter sees it: the raw body text, the
outcome of `JSON.parse(body)` (`.error` models a thrown `SyntaxError`; the
body is single-sourced so the adapter's parse, the route's re-parse and the
broadcast task's parse all share this outcome), and the two signature
headers, already defaulted to `""` when absent (the source's
`headers.get(...) || ''`). -/
structure Request where
  body : String
  parsed : Except Unit Json
  tsHeader : String
  sigHeader : String

/-- The error classes the route's catch block distinguishes. -/
inductive JsError where
  | syntaxError : JsError
  | typeError : JsError
  | otherError : JsError
deriving Repr, DecidableEq

/-! QQ Bot adapter -/

/-- Adapter configuration `QQBotConfig`. The constructor initializes the
`ed25519` field exactly when `config.secret` is truthy, i.e. a nonempty
string, which the functions below re-derive from `secret` itself. -/
structure QQBotConfig where
  appId : String
  secret : String
  verifySignature : Bool

/-- Method `QQBotAdapter.verifySignature(body, timestamp, signature)`:
`true` immediately when verification is disabled; `false` when no secret is
configured; otherwise Ed25519-verify over `timestamp + body` (any thrown
error is caught and yields `false`, which `Ed25519.verify` already does). -/
def QQBotAdapter.verifySignature (cfg : QQBotConfig) (body timestamp signature : String) : Bool :=
  if !cfg.verifySignature then true
  else if cfg.secret = "" then false
  else Ed25519.verify cfg.secret signature (timestamp ++ body)

/-- Method `QQBotAdapter.createAckResponse()`: HTTP callback ACK, OpCode 12. -/
def QQBotAdapter.createAckResponse : Response :=
  ⟨200, .json (.jobj [("op", .jnum 12)])⟩

/-- Method `QQBotAdapter.handleDispatch`: OpCode 0 just acknowledges. -/
def QQBotAdapter.handleDispatch : Response :=
  QQBotAdapter.createAckResponse

/-- The canonical event envelope (`WebhookEventData`). Fields that the
source fills with arbitrary JavaScript values keep type `Json`. -/
structure WebhookEventData where
  id : Json
  platform : String
  type : Json
  timestamp : Int
  headers : List (String × Json)
  payload : Json
  data : Json
deriving Repr

/-- Method `QQBotAdapter.transform(payload)`: destructures
`{ id, op, d, s, t }` (throwing on a `null`/`undefined` payload) and builds
the canonical event; `op.toString()` throws when `op` is absent. `Date.now()`
is the explicit `now`. An `.error` result models a thrown `TypeError`. -/
def QQBotAdapter.transform (now : Int) (payload : Json) : Except Unit WebhookEventData :=
  if payload.nullish then .error ()
  else
    let id := payload.get "id"
    let op := payload.get "op"
    let d := payload.get "d"
    let s := payload.get "s"
    let t := payload.get "t"
    if op.nullish then .error ()
    else
      .ok
        { id := if id.truthy then id else .jstr ("qqbot_" ++ toString now)
          platform := "qqbot"
          type := if t.truthy then t else .jstr ("op_" ++ jsString op)
          timestamp := now
          headers :=
            [("x-qqbot-op", .jstr (jsString op)),
             ("x-qqbot-seq", .jstr (if s.nullish then "" else jsString s)),
             ("x-qqbot-event-type", if t.truthy then t else .jstr "")]
          payload := d
          data :=
            .jobj
              [("opcode", op),
               ("event_type", if t.truthy then t else .jstr ""),
               ("sequence", if s.truthy then s else .jnum 0),
               ("event_id", if id.truthy then id else .jstr ""),
               ("event_data", d)] }

/-- Method `QQBotAdapter.handleVerification(payload)` (OpCode 13):
destructures `payload.d` (throwing — `.error` — on `null`/`undefined` `d`,
which the caller's catch turns into a 500); 400 when either token is falsy;
500 when no secret is bound; otherwise sign
`String(event_ts) + String(plain_token)` and answer 200 with the original
`plain_token` value echoed plus the hex signature (an error thrown by `sign`
is caught into a 500). -/
def QQBotAdapter.handleVerification (cfg : QQBotConfig) (d : Json) : Except Unit Response :=
  if d.nullish then .error ()
  else
    let plain_token := d.get "plain_token"
    let event_ts := d.get "event_ts"
    if !plain_token.truthy || !event_ts.truthy then
      .ok ⟨400, .text "Bad request"⟩
    else if cfg.secret = "" then
      .ok ⟨500, .text "Server configuration error"⟩
    else
      match Ed25519.sign cfg.secret (jsString event_ts ++ jsString plain_token) with
      | .error _ => .ok ⟨500, .text "Internal server error"⟩
      | .ok signature =>
        .ok ⟨200, .json (.jobj [("plain_token", plain_token), ("signature", .jstr signature)])⟩

/-- Method `QQBotAdapter.handleWebhook(request)`: parse the body (a thrown
`SyntaxError` is caught into a 500 here); reading `payload.op` throws on a
`null` payload (also 500 via the catch); OpCode 13 goes to
`handleVerification` without any signature check; otherwise the signature is
checked only when verification is enabled *and* both headers are nonempty,
rejecting with 401 on failure; then OpCode 0 and unknown opcodes both
acknowledge. -/
def QQBotAdapter.handleWebhook (cfg : QQBotConfig) (req : Request) : Response :=
  match req.parsed with
  | .error _ => ⟨500, .text "Internal server error"⟩
  | .ok payload =>
    if payload.nullish then ⟨500, .text "Internal server error"⟩
    else
      let op := payload.get "op"
      if op.isNum 13 then
        match QQBotAdapter.handleVerification cfg (payload.get "d") with
        | .error _ => ⟨500, .text "Internal server error"⟩
        | .ok r => r
      else
        if cfg.verifySignature && req.tsHeader != "" && req.sigHeader != "" then
          if QQBotAdapter.verifySignature cfg req.body req.tsHeader req.sigHeader then
            if op.isNum 0 then QQBotAdapter.handleDispatch
            else QQBotAdapter.createAckResponse
          else ⟨401, .text "Invalid signature"⟩
        else
          if op.isNum 0 then QQBotAdapter.handleDispatch
          else QQBotAdapter.createAckResponse

/-! Dispatch pipeline of the webhook routes -/

/-- The platform allow-list `SUPPORTED_PLATFORMS`. -/
def SUPPORTED_PLATFORMS : List String :=
  ["github", "gitlab", "qqbot", "telegram",
   "stripe", "jenkins", "jira", "sentry", "generic"]

/-- A routing record (`proxy` row), reduced to the fields the routes read. -/
structure Proxy where
  id : String
  platform : String
  active : Bool
  access_token : String
deriving Repr

/-- Modelled from the spec: the outcome of
`Promise.race([dbQueryPromise, timeoutPromise])`. `getProxyByRandomKey`
(in `src/db/proxies.ts`, which is not among the provided sources) resolves
per the routing-store contract to the record or to an absent marker; the
spec requires absence to be distinguishable from the race's 10-second
timeout, whose resolved value is `null` — so absence is the non-`null`
falsy `lookedUp none` here. -/
inductive RaceResult where
  | timedOut : RaceResult
  | lookedUp : Option Proxy → RaceResult

/-- The labels the route reports to the performance monitor on each early
exit (`perfMonitor.end('error', ...)`); `CaughtError` stands for the
`classifyError` result of the catch-all block. -/
inductive ErrKind where
  | InvalidPlatform | DBTimeout | ProxyNotFound | ProxyInactive
  | PlatformMismatch | AdapterCreationFailed | CaughtError
deriving Repr, DecidableEq

/-- The catch block at the end of the POST handler: `SyntaxError` → 400,
`TypeError` → 400, anything else → 500. -/
def catchResponse : JsError → Response
  | .syntaxError => ⟨400, .text "Invalid JSON payload"⟩
  | .typeError => ⟨400, .text "Invalid request format"⟩
  | .otherError => ⟨500, .text "Internal server error"⟩

/-- Modelled from the spec: an adapter as the pipeline consumes it —
`handleWebhook` (which may throw) and `transform`. For the qqbot platform
both are the embedded functions above; the adapters of the other platforms
are not among the provided sources, so they are supplied as part of the
pipeline's input. -/
structure Adapter where
  handle : Request → Except JsError Response
  transform : Int → Json → Except Unit WebhookEventData

/-- Modelled from the spec: `withRetry` (in `src/utils/performance.ts`,
which is not among the provided sources) makes an initial attempt plus up to
`maxRetries` retries while the continue-callback allows (both call sites
always return `true`); per the spec an exhausted retry budget is logged and
dropped, never re-thrown. `outcome i` is the success of the `i`-th attempt;
the result is the number of attempts made and whether one succeeded, with
`maxAttempts = maxRetries + 1 = 3` at both call sites. -/
def retryTrace (maxAttempts : Nat) (outcome : Nat → Bool) : Nat × Bool :=
  match (List.range maxAttempts).findIdx? (fun i => outcome i) with
  | some i => (i + 1, true)
  | none => (maxAttempts, false)

/-- What the detached `broadcastEvent` task did: how many increment attempts
ran and whether one succeeded, whether delivery to the Durable Object was
attempted at all and with what retry outcome, and the canonical event (if
one was produced). A trace with everything zeroed records the outer catch
swallowing a parse/transform throw. -/
structure BroadcastTrace where
  counterAttempts : Nat
  counterSucceeded : Bool
  deliveryAttempted : Bool
  deliveryAttempts : Nat
  deliverySucceeded : Bool
  event : Option WebhookEventData
deriving Repr

/-- The background task `broadcastEvent`: re-parse the preserved body copy,
transform it, then run the two independently retried side effects; the
event-count retry's result is not consulted before delivery proceeds, and
the outer catch turns any throw into a logged no-op. `counterOk`/`deliverOk`
give each attempt's success (external effects: the D1 update and the
Durable Object fetch's `doResponse.ok`). -/
def broadcastEvent (parsed : Except Unit Json) (now : Int)
    (counterOk deliverOk : Nat → Bool)
    (transform : Int → Json → Except Unit WebhookEventData) : BroadcastTrace :=
  match parsed with
  | .error _ => ⟨0, false, false, 0, false, none⟩
  | .ok payload =>
    match transform now payload with
    | .error _ => ⟨0, false, false, 0, false, none⟩
    | .ok event =>
      let c := retryTrace 3 counterOk
      let d := retryTrace 3 deliverOk
      ⟨c.1, c.2, true, d.1, d.2, some event⟩

/-- Everything one POST call consumes: the path's platform segment, the
raced lookup outcome, the adapter factory (`createAdapter` is outside the
provided sources; per the spec it yields the platform's adapter or an
explicit failure), the request, and the ambient clock plus the broadcast
side effects' outcomes. -/
structure PostInput where
  platform : String
  race : RaceResult
  mkAdapter : Proxy → Option Adapter
  req : Request
  now : Int
  counterOk : Nat → Bool
  deliverOk : Nat → Bool

/-- A POST call's observables: the synchronous response, the error label
reported to the monitor (`none` on success), and the detached broadcast
task's trace when one was scheduled (`none` when no task was scheduled). -/
structure PostResult where
  response : Response
  errKind : Option ErrKind
  broadcast : Option BroadcastTrace

/-- The `POST /:platform/:randomKey` handler. Stages in source order:
platform validation; the raced lookup (`null` means timeout 500, any other
falsy value means 404); the active and platform checks; adapter
construction; the adapter's own handling (whose thrown errors fall to the
catch block); and — only when the adapter answered 200 — broadcast
scheduling, which for qqbot re-parses the body (a throw lands in the catch,
replacing the response) and schedules only for OpCode 0, while every other
platform schedules unconditionally. -/
def postHandler (inp : PostInput) : PostResult :=
  if !SUPPORTED_PLATFORMS.contains inp.platform then
    ⟨⟨400, .text "Invalid platform"⟩, some .InvalidPlatform, none⟩
  else
    match inp.race with
    | .timedOut => ⟨⟨500, .text "Database timeout"⟩, some .DBTimeout, none⟩
    | .lookedUp none => ⟨⟨404, .text "Proxy not found"⟩, some .ProxyNotFound, none⟩
    | .lookedUp (some proxy) =>
      if !proxy.active then
        ⟨⟨403, .text "Proxy is inactive"⟩, some .ProxyInactive, none⟩
      else if proxy.platform ≠ inp.platform then
        ⟨⟨400, .text "Platform mismatch"⟩, some .PlatformMismatch, none⟩
      else
        match inp.mkAdapter proxy with
        | none => ⟨⟨500, .text "Failed to create adapter"⟩, some .AdapterCreationFailed, none⟩
        | some adapter =>
          match adapter.handle inp.req with
          | .error e => ⟨catchResponse e, some .CaughtError, none⟩
          | .ok response =>
            if response.status = 200 then
              if inp.platform = "qqbot" then
                match inp.req.parsed with
                | .error _ => ⟨catchResponse .syntaxError, some .CaughtError, none⟩
                | .ok payload =>
                  if payload.nullish then ⟨catchResponse .typeError, some .CaughtError, none⟩
                  else if (payload.get "op").isNum 0 then
                    ⟨response, none,
                     some (broadcastEvent inp.req.parsed inp.now inp.counterOk inp.deliverOk
                            adapter.transform)⟩
                  else ⟨response, none, none⟩
              else
                ⟨response, none,
                 some (broadcastEvent inp.req.parsed inp.now inp.counterOk inp.deliverOk
                        adapter.transform)⟩
            else ⟨response, none, none⟩

/-- The qqbot instantiation of the pipeline's adapter slot: its
`handleWebhook` never throws (it catches internally), its transform is the
embedded one. -/
def qqbotAdapterOf (cfg : QQBotConfig) : Adapter :=
  ⟨fun req => .ok (QQBotAdapter.handleWebhook cfg req), QQBotAdapter.transform⟩

/-- A POST input for the qqbot platform with a looked-up routing record. -/
def qqbotPostInput (cfg : QQBotConfig) (proxy : Proxy) (req : Request)
    (now : Int) (counterOk deliverOk : Nat → Bool) : PostInput :=
  { platform := "qqbot", race := .lookedUp (some proxy),
    mkAdapter := fun _ => some (qqbotAdapterOf cfg), req := req,
    now := now, counterOk := counterOk, deliverOk := deliverOk }

/-- Everything one GET (live-connection) call consumes: path segments, the
directly awaited lookup (no race, so its settled outcomes are just the
record or absence), and the Durable Object fetch outcome (external; an
`.error` is any throw, landing in the catch). -/
structure GetInput where
  platform : String
  connectionType : String
  lookup : Option Proxy
  doFetch : Except Unit Response

/-- The `GET /:platform/:randomKey/:connectionType` handler: platform and
connection-type validation, then `!proxy || !proxy.active` collapses absent
and inactive into one 404, then the platform check, then the response
forwarded from the Durable Object (status and body preserved). -/
def getHandler (inp : GetInput) : Response :=
  if !SUPPORTED_PLATFORMS.contains inp.platform then
    ⟨400, .text "Invalid platform"⟩
  else if !(["ws", "sse"].contains inp.connectionType) then
    ⟨400, .text "Invalid connection type"⟩
  else
    match inp.lookup with
    | none => ⟨404, .text "Proxy not found or inactive"⟩
    | some proxy =>
      if !proxy.active then ⟨404, .text "Proxy not found or inactive"⟩
      else if proxy.platform ≠ inp.platform then ⟨400, .text "Platform mismatch"⟩
      else
        match inp.doFetch with
        | .error _ => ⟨500, .text "Internal server error"⟩
        | .ok r => ⟨r.status, r.body⟩

/-! Concrete instances used by counterexamples and witnesses -/

/-- Lower-case hex character check (digit or lower-case letter a–f). -/
def isLowerHexChar (c : Char) : Bool :=
  (48 ≤ c.toNat ∧ c.toNat ≤ 57) ∨ (97 ≤ c.toNat ∧ c.toNat ≤ 102)

/-- A 33-character ASCII secret: longer than the 32-byte stretch target. -/
def secret33 : String := "aaaaaaaaaaaaaaaaaaaaaaaaaaaaaaaaa"

/-- A qqbot configuration with verification enabled and a short secret. -/
def cexCfg : QQBotConfig := ⟨"app", "s", true⟩

/-- An active qqbot routing record. -/
def cexProxy : Proxy := ⟨"p1", "qqbot", true, "tok"⟩

/-- An OpCode-0 event request whose signature header is absent (empty). -/
def cexReq : Request :=
  ⟨"\x7b\x22op\x22:0\x7d", .ok (.jobj [("op", .jnum 0)]), "1700000000", ""⟩

/-- An OpCode-0 event request with both headers present and a 1-byte (hence
invalid) signature. -/
def wReqBadSig : Request :=
  ⟨"\x7b\x22op\x22:0\x7d", .ok (.jobj [("op", .jnum 0)]), "1700000000", "00"⟩

/-- Challenge fields with a string token and a numeric timestamp. -/
def cexD4fs : List (String × Json) :=
  [("plain_token", .jstr "tok"), ("event_ts", .jnum 1700000000)]

/-- The challenge payload-`d` built from `cexD4fs`. -/
def cexD4 : Json := .jobj cexD4fs

/-- A handshake request whose `d` carries no tokens at all. -/
def cexReq7 : Request :=
  ⟨"x", .ok (.jobj [("op", .jnum 13), ("d", .jobj [])]), "", ""⟩

/-- A qqbot configuration with an 8-character secret (stretches to exactly
32 bytes). -/
def wCfg : QQBotConfig := ⟨"app", "mysecret", true⟩

/-- A well-formed handshake request. -/
def wReq13 : Request :=
  ⟨"x", .ok (.jobj [("op", .jnum 13), ("d", cexD4)]), "", ""⟩

/-- A handshake request with no `d` at all: the challenge destructuring
throws on the resulting `undefined`. -/
def cexReq5 : Request :=
  ⟨"x", .ok (.jobj [("op", .jnum 13)]), "", ""⟩

/-- A qqbot event request whose body is not valid JSON (the shared parse
outcome is a thrown `SyntaxError`). -/
def cexReqBadJson : Request :=
  ⟨"not json", .error (), "", ""⟩

/-- A handshake request whose `d` has `event_ts` but no `plain_token`. -/
def wReq13miss : Request :=
  ⟨"x", .ok (.jobj [("op", .jnum 13), ("d", .jobj [("event_ts", .jnum 1)])]), "", ""⟩

/-- A POST input whose raced lookup timed out. -/
def cexTimeoutInput : PostInput :=
  ⟨"qqbot", .timedOut, fun _ => none, cexReq, 0, fun _ => true, fun _ => true⟩

/-- A POST input whose lookup settled quickly to "record absent". -/
def cexAbsentInput : PostInput :=
  ⟨"qqbot", .lookedUp none, fun _ => none, cexReq, 0, fun _ => true, fun _ => true⟩

/-- An OpCode-0 payload for the broadcast-task witness. -/
def cexBroadcastPayload : Json := .jobj [("op", .jnum 0), ("d", .jstr "x")]

/-- A GET input with an absent routing record. -/
def cexGetAbsent : GetInput := ⟨"qqbot", "ws", none, .error ()⟩

/-- A GET input with an inactive routing record. -/
def cexGetInactive : GetInput := ⟨"qqbot", "sse", some ⟨"p1", "qqbot", false, "tok"⟩, .error ()⟩

/-! Helper lemmas -/

theorem foldl_mod_lt (l : List Nat) (a : Nat) (h : a < 256) :
    l.foldl (fun a b => (a * 31 + b + 7) % 256) a < 256 := by
  induction l generalizing a with
  | nil => simpa using h
  | cons x xs ih =>
    simp only [List.foldl_cons]
    exact ih _ (Nat.mod_lt _ (by omega))

theorem naclDetached_mem_lt (msg sk : List Nat) :
    ∀ b ∈ naclDetached msg sk, b < 256 := by
  intro b hb
  simp only [naclDetached, List.mem_map] at hb
  obtain ⟨i, _, rfl⟩ := hb
  exact foldl_mod_lt _ _ (Nat.mod_lt _ (by omega))

theorem naclDetached_length (msg sk : List Nat) :
    (naclDetached msg sk).length = 64 := by
  simp [naclDetached]

theorem hexVal_hexDigitChar : ∀ n < 16, hexVal (hexDigitChar n) = some n := by decide

theorem hexDigitChar_not_space : ∀ n < 16, isJsSpace (hexDigitChar n) = false := by decide

theorem hexDigitChar_ne_x : ∀ n < 16, hexDigitChar n ≠ 'x' := by decide

theorem parseIntHex_pair :
    ∀ hi < 16, ∀ lo < 16,
      parseIntHex [hexDigitChar hi, hexDigitChar lo] = some ((16 * hi + lo : Nat) : Int) := by
  decide

theorem toUint8_lt (k : Nat) (h : k < 256) : toUint8 (some (k : Int)) = k := by
  simp only [toUint8]
  omega

theorem parsePairs_flatMap (bs : List Nat) (h : ∀ b ∈ bs, b < 256) :
    parsePairs (bs.flatMap byteHexChars) = bs := by
  induction bs with
  | nil => rfl
  | cons b rest ih =>
    have hb : b < 256 := h b (by simp)
    have h1 : b / 16 < 16 := by omega
    have h2 : b % 16 < 16 := by omega
    have h4 : 16 * (b / 16) + b % 16 < 256 := by omega
    have h3 : 16 * (b / 16) + b % 16 = b := by omega
    simp only [List.flatMap_cons, byteHexChars, List.cons_append, List.nil_append]
    show toUint8 (parseIntHex [hexDigitChar (b / 16), hexDigitChar (b % 16)]) ::
        parsePairs (rest.flatMap byteHexChars) = b :: rest
    rw [parseIntHex_pair _ h1 _ h2, toUint8_lt _ h4, h3,
        ih (fun x hx => h x (by simp [hx]))]

theorem flatMap_byteHex_mem (bs : List Nat) (h : ∀ b ∈ bs, b < 256) :
    ∀ c ∈ bs.flatMap byteHexChars, ∃ n, n < 16 ∧ c = hexDigitChar n := by
  intro c hc
  simp only [List.mem_flatMap, byteHexChars] at hc
  obtain ⟨b, hbmem, hc⟩ := hc
  have hb : b < 256 := h b hbmem
  simp only [List.mem_cons, List.not_mem_nil, or_false] at hc
  rcases hc with rfl | rfl
  · exact ⟨b / 16, by omega, rfl⟩
  · exact ⟨b % 16, by omega, rfl⟩

theorem flatMap_byteHex_length (bs : List Nat) :
    (bs.flatMap byteHexChars).length = 2 * bs.length := by
  induction bs with
  | nil => rfl
  | cons b rest ih =>
    simp only [List.flatMap_cons, List.length_append, ih, byteHexChars,
      List.length_cons, List.length_nil]
    omega

theorem dropWhile_false {p : Char → Bool} (l : List Char) (h : ∀ c ∈ l, p c = false) :
    l.dropWhile p = l := by
  cases l with
  | nil => rfl
  | cons c cs => simp [List.dropWhile_cons, h c (by simp)]

theorem trimChars_eq_self (l : List Char) (h : ∀ c ∈ l, isJsSpace c = false) :
    trimChars l = l := by
  unfold trimChars
  rw [dropWhile_false l h, dropWhile_false l.reverse (fun c hc => h c (List.mem_reverse.mp hc)),
      List.reverse_reverse]

theorem hexToBytes_bytesToHex (bs : List Nat) (h : ∀ b ∈ bs, b < 256) :
    hexToBytes (bytesToHex bs) = .ok bs := by
  have hmem := flatMap_byteHex_mem bs h
  have hdrop : dropHex0x (bs.flatMap byteHexChars) = bs.flatMap byteHexChars := by
    cases bs with
    | nil => rfl
    | cons b rest =>
      simp only [List.flatMap_cons, byteHexChars, List.cons_append, List.nil_append]
      have hx : hexDigitChar (b % 16) ≠ 'x' := hexDigitChar_ne_x _ (by omega)
      unfold dropHex0x
      split
      · rename_i heq
        rw [List.cons.injEq, List.cons.injEq] at heq
        exact absurd heq.2.1 hx
      · rfl
  have htrim : trimChars (bs.flatMap byteHexChars) = bs.flatMap byteHexChars := by
    refine trimChars_eq_self _ (fun c hc => ?_)
    obtain ⟨n, hn, rfl⟩ := hmem c hc
    exact hexDigitChar_not_space n hn
  have hlen := flatMap_byteHex_length bs
  simp only [hexToBytes, bytesToHex, String.data]
  rw [hdrop, htrim, hlen]
  rw [if_neg (by omega)]
  rw [parsePairs_flatMap bs h]

theorem isLowerHexChar_hexDigitChar : ∀ n < 16, isLowerHexChar (hexDigitChar n) = true := by
  decide

theorem bytesToHex_lower (bs : List Nat) (h : ∀ b ∈ bs, b < 256) :
    (bytesToHex bs).data.all isLowerHexChar = true := by
  rw [List.all_eq_true]
  intro c hc
  obtain ⟨n, hn, rfl⟩ := flatMap_byteHex_mem bs h c hc
  exact isLowerHexChar_hexDigitChar n hn

theorem postHandler_invalid_platform (inp : PostInput)
    (h : SUPPORTED_PLATFORMS.contains inp.platform = false) :
    postHandler inp = ⟨⟨400, .text "Invalid platform"⟩, some .InvalidPlatform, none⟩ := by
  have hm : inp.platform ∉ SUPPORTED_PLATFORMS := by simpa using h
  simp [postHandler, hm]

theorem postHandler_timeout (inp : PostInput)
    (h : SUPPORTED_PLATFORMS.contains inp.platform = true)
    (hr : inp.race = .timedOut) :
    postHandler inp = ⟨⟨500, .text "Database timeout"⟩, some .DBTimeout, none⟩ := by
  have hm : inp.platform ∈ SUPPORTED_PLATFORMS := by simpa using h
  simp [postHandler, hm, hr]

theorem postHandler_not_found (inp : PostInput)
    (h : SUPPORTED_PLATFORMS.contains inp.platform = true)
    (hr : inp.race = .lookedUp none) :
    postHandler inp = ⟨⟨404, .text "Proxy not found"⟩, some .ProxyNotFound, none⟩ := by
  have hm : inp.platform ∈ SUPPORTED_PLATFORMS := by simpa using h
  simp [postHandler, hm, hr]

theorem postHandler_inactive (inp : PostInput) (p : Proxy)
    (h : SUPPORTED_PLATFORMS.contains inp.platform = true)
    (hr : inp.race = .lookedUp (some p)) (ha : p.active = false) :
    postHandler inp = ⟨⟨403, .text "Proxy is inactive"⟩, some .ProxyInactive, none⟩ := by
  have hm : inp.platform ∈ SUPPORTED_PLATFORMS := by simpa using h
  simp [postHandler, hm, hr, ha]

theorem postHandler_mismatch (inp : PostInput) (p : Proxy)
    (h : SUPPORTED_PLATFORMS.contains inp.platform = true)
    (hr : inp.race = .lookedUp (some p)) (ha : p.active = true)
    (hp : p.platform ≠ inp.platform) :
    postHandler inp = ⟨⟨400, .text "Platform mismatch"⟩, some .PlatformMismatch, none⟩ := by
  have hm : inp.platform ∈ SUPPORTED_PLATFORMS := by simpa using h
  simp [postHandler, hm, hr, ha, hp]

theorem postHandler_adapter_failed (inp : PostInput) (p : Proxy)
    (h : SUPPORTED_PLATFORMS.contains inp.platform = true)
    (hr : inp.race = .lookedUp (some p)) (ha : p.active = true)
    (hp : p.platform = inp.platform) (hmk : inp.mkAdapter p = none) :
    postHandler inp = ⟨⟨500, .text "Failed to create adapter"⟩, some .AdapterCreationFailed, none⟩ := by
  have hm : inp.platform ∈ SUPPORTED_PLATFORMS := by simpa using h
  simp [postHandler, hm, hr, ha, hp, hmk]

theorem postHandler_thrown (inp : PostInput) (p : Proxy) (a : Adapter) (e : JsError)
    (h : SUPPORTED_PLATFORMS.contains inp.platform = true)
    (hr : inp.race = .lookedUp (some p)) (ha : p.active = true)
    (hp : p.platform = inp.platform) (hmk : inp.mkAdapter p = some a)
    (hh : a.handle inp.req = .error e) :
    postHandler inp = ⟨catchResponse e, some .CaughtError, none⟩ := by
  have hm : inp.platform ∈ SUPPORTED_PLATFORMS := by simpa using h
  simp [postHandler, hm, hr, ha, hp, hmk, hh]

theorem qqbotPost_reduce (cfg : QQBotConfig) (proxy : Proxy) (req : Request) (now : Int)
    (cok dok : Nat → Bool) (hact : proxy.active = true) (hplat : proxy.platform = "qqbot") :
    postHandler (qqbotPostInput cfg proxy req now cok dok) =
      if (QQBotAdapter.handleWebhook cfg req).status = 200 then
        match req.parsed with
        | .error _ => ⟨catchResponse .syntaxError, some .CaughtError, none⟩
        | .ok payload =>
          if payload.nullish then ⟨catchResponse .typeError, some .CaughtError, none⟩
          else if (payload.get "op").isNum 0 then
            ⟨QQBotAdapter.handleWebhook cfg req, none,
             some (broadcastEvent req.parsed now cok dok QQBotAdapter.transform)⟩
          else ⟨QQBotAdapter.handleWebhook cfg req, none, none⟩
      else ⟨QQBotAdapter.handleWebhook cfg req, none, none⟩ := by
  have hm : "qqbot" ∈ SUPPORTED_PLATFORMS := by decide
  simp [postHandler, qqbotPostInput, qqbotAdapterOf, hact, hplat, hm]

theorem Json.isNum_13_not_0 (j : Json) (h : j.isNum 13 = true) : j.isNum 0 = false := by
  cases j <;> simp_all [Json.isNum]

/-- OpCode-13 challenge success on a general (non-nullish) `d`. -/
theorem handleVerification_ok (cfg : QQBotConfig) (d : Json)
    (hdn : d.nullish = false)
    (htok : (d.get "plain_token").truthy = true)
    (hts : (d.get "event_ts").truthy = true)
    (hsec : ¬ cfg.secret = "")
    (hlen : (encodeUTF8 (Ed25519.stretch cfg.secret)).length = 32) :
    QQBotAdapter.handleVerification cfg d =
      .ok ⟨200, .json (.jobj
        [("plain_token", d.get "plain_token"),
         ("signature", .jstr (bytesToHex (naclDetached
           (encodeUTF8 (jsString (d.get "event_ts") ++ jsString (d.get "plain_token")))
           (encodeUTF8 (Ed25519.stretch cfg.secret)))))])⟩ := by
  have hseed : naclFromSeed (encodeUTF8 (Ed25519.stretch cfg.secret)) =
      .ok ⟨encodeUTF8 (Ed25519.stretch cfg.secret), encodeUTF8 (Ed25519.stretch cfg.secret)⟩ := by
    simp [naclFromSeed, hlen]
  simp only [QQBotAdapter.handleVerification, hdn, htok, hts, Bool.not_true,
    Bool.false_or, Bool.or_self, Bool.false_eq_true, if_false, if_neg hsec,
    Ed25519.sign, hseed]

/-- Helper: the response and the error label of a POST call do not depend on
the broadcast side effects' outcomes. -/
theorem postHandler_outcome_indep (plat : String) (race : RaceResult)
    (mk : Proxy → Option Adapter) (req : Request) (now : Int)
    (cok dok cok' dok' : Nat → Bool) :
    (postHandler ⟨plat, race, mk, req, now, cok', dok'⟩).response =
      (postHandler ⟨plat, race, mk, req, now, cok, dok⟩).response ∧
    (postHandler ⟨plat, race, mk, req, now, cok', dok'⟩).errKind =
      (postHandler ⟨plat, race, mk, req, now, cok, dok⟩).errKind := by
  by_cases h1 : plat ∈ SUPPORTED_PLATFORMS
  · cases race with
    | timedOut => simp [postHandler, h1]
    | lookedUp o =>
      cases o with
      | none => simp [postHandler, h1]
      | some p =>
        by_cases h2 : p.active = true
        · by_cases h3 : p.platform = plat
          · cases hmk : mk p with
            | none => simp [postHandler, h1, h2, h3, hmk]
            | some a =>
              cases hh : a.handle req with
              | error e => simp [postHandler, h1, h2, h3, hmk, hh]
              | ok resp =>
                by_cases h4 : resp.status = 200
                · by_cases h5 : plat = "qqbot"
                  · subst h5
                    cases hp : req.parsed with
                    | error e => simp [postHandler, h1, h2, h3, hmk, hh, h4, hp]
                    | ok payload =>
                      by_cases h6 : payload.nullish = true
                      · simp [postHandler, h1, h2, h3, hmk, hh, h4, hp, h6]
                      · by_cases h7 : (payload.get "op").isNum 0 = true
                        · simp [postHandler, h1, h2, h3, hmk, hh, h4, hp, h6, h7]
                        · simp [postHandler, h1, h2, h3, hmk, hh, h4, hp, h6, h7]
                  · simp [postHandler, h1, h2, h3, hmk, hh, h4, h5]
                · simp [postHandler, h1, h2, h3, hmk, hh, h4]
          · simp [postHandler, h1, h2, h3]
        · simp [postHandler, h1, h2]
  · simp [postHandler, h1]
/-! Claim theorems.

Each claim of the specification review is settled by one theorem below,
with a closed witness instantiating every theorem that carries hypotheses,
and a closed counterexample where the claim as literally stated fails on
the embedded code. -/

/-- C1 (counterexample): the claim says that with verification enabled every
non-handshake call has its signature verified before further processing and
that a failing verification always yields 401 with no broadcast. On a
request whose signature header is absent (empty), the embedded
`handleWebhook` skips verification entirely: recomputing the adapter's own
check on that request fails, yet the call is acknowledged with 200 and the
pipeline schedules a broadcast that produces a canonical event. -/
theorem qqbot_missing_header_bypass_cex :
    cexCfg.verifySignature = true ∧
    QQBotAdapter.verifySignature cexCfg cexReq.body cexReq.tsHeader cexReq.sigHeader = false ∧
    QQBotAdapter.handleWebhook cexCfg cexReq = ⟨200, .json (.jobj [("op", .jnum 12)])⟩ ∧
    (postHandler (qqbotPostInput cexCfg cexProxy cexReq 0 (fun _ => true) (fun _ => true))).response.status = 200 ∧
    (postHandler (qqbotPostInput cexCfg cexProxy cexReq 0 (fun _ => true) (fun _ => true))).broadcast.isSome = true ∧
    ((postHandler (qqbotPostInput cexCfg cexProxy cexReq 0 (fun _ => true)
        (fun _ => true))).broadcast.bind BroadcastTrace.event).isSome = true :=
  ⟨rfl, by decide, rfl, rfl, rfl, rfl⟩

/-- C1 (amended): for a non-handshake call with verification enabled and
*both* signature headers present, a failing signature verification makes
`handleWebhook` answer 401 and the pipeline schedule no broadcast. (When a
header is missing, verification is skipped and the call proceeds — see the
counterexample.) -/
theorem qqbot_invalid_signature_401
    (cfg : QQBotConfig) (proxy : Proxy) (req : Request) (payload : Json)
    (now : Int) (cok dok : Nat → Bool)
    (hparse : req.parsed = .ok payload)
    (hnn : payload.nullish = false)
    (hop : (payload.get "op").isNum 13 = false)
    (hv : cfg.verifySignature = true)
    (hts : req.tsHeader ≠ "")
    (hsig : req.sigHeader ≠ "")
    (hfail : QQBotAdapter.verifySignature cfg req.body req.tsHeader req.sigHeader = false)
    (hact : proxy.active = true) (hplat : proxy.platform = "qqbot") :
    QQBotAdapter.handleWebhook cfg req = ⟨401, .text "Invalid signature"⟩ ∧
    (postHandler (qqbotPostInput cfg proxy req now cok dok)).response = ⟨401, .text "Invalid signature"⟩ ∧
    (postHandler (qqbotPostInput cfg proxy req now cok dok)).broadcast = none := by
  have h1 : (req.tsHeader != "") = true := by simpa [bne_iff_ne] using hts
  have h2 : (req.sigHeader != "") = true := by simpa [bne_iff_ne] using hsig
  have hw : QQBotAdapter.handleWebhook cfg req = ⟨401, .text "Invalid signature"⟩ := by
    simp only [QQBotAdapter.handleWebhook, hparse, hnn, hop, hv, hfail, h1, h2,
      Bool.false_eq_true, if_false, if_true, Bool.true_and, Bool.and_self, ite_true, ite_false]
  refine ⟨hw, ?_, ?_⟩ <;>
  · simp only [postHandler, qqbotPostInput, qqbotAdapterOf, hact, hplat, hw]
    norm_num [SUPPORTED_PLATFORMS]

/-- C1 (witness): a concrete event call with both headers present and a
one-byte signature is rejected with 401 and no broadcast is scheduled. -/
theorem qqbot_invalid_signature_401_w :
    QQBotAdapter.handleWebhook cexCfg wReqBadSig = ⟨401, .text "Invalid signature"⟩ ∧
    (postHandler (qqbotPostInput cexCfg cexProxy wReqBadSig 0 (fun _ => true)
      (fun _ => true))).broadcast = none := by
  have h := qqbot_invalid_signature_401 cexCfg cexProxy wReqBadSig (.jobj [("op", .jnum 0)])
    0 (fun _ => true) (fun _ => true) rfl rfl rfl rfl (by decide) (by decide) (by decide)
    rfl rfl
  exact ⟨h.1, h.2.2⟩

/-- C2 (counterexample): the round-trip claim quantifies over every secret,
but on a 33-character secret the stretch loop leaves the secret untouched
(its body runs only below 32), the 33-byte seed is rejected by key
derivation, and `sign` throws instead of producing a verifiable signature. -/
theorem ed25519_roundtrip_long_secret_cex :
    ¬ ∃ sig, Ed25519.sign secret33 "hello" = .ok sig ∧
        Ed25519.verify secret33 sig "hello" = true := by
  rintro ⟨sig, hs, -⟩
  have h : Ed25519.sign secret33 "hello" = .error "bad seed size" := by rfl
  rw [h] at hs
  exact Except.noConfusion hs

/-- C2 (amended): sign-then-verify round-trip for every message and every
secret whose stretched form UTF-8-encodes to exactly 32 bytes (in
particular any ASCII secret of 1 to 32 characters): `verify` accepts the
signature `sign` produced under the same secret. -/
theorem ed25519_sign_verify_roundtrip (m s : String)
    (h : (encodeUTF8 (Ed25519.stretch s)).length = 32) :
    ∃ sig, Ed25519.sign s m = .ok sig ∧ Ed25519.verify s sig m = true := by
  have hseed : naclFromSeed (encodeUTF8 (Ed25519.stretch s)) =
      .ok ⟨encodeUTF8 (Ed25519.stretch s), encodeUTF8 (Ed25519.stretch s)⟩ := by
    simp [naclFromSeed, h]
  refine ⟨bytesToHex (naclDetached (encodeUTF8 m) (encodeUTF8 (Ed25519.stretch s))), ?_, ?_⟩
  · simp [Ed25519.sign, hseed]
  · simp only [Ed25519.verify, hseed]
    rw [hexToBytes_bytesToHex _ (naclDetached_mem_lt _ _)]
    simp [naclDetached_length, naclDetachedVerify]

/-- C2 (witness): the round-trip at the concrete secret `mysecret` and
message `hello`. -/
theorem ed25519_sign_verify_roundtrip_w :
    (encodeUTF8 (Ed25519.stretch "mysecret")).length = 32 ∧
    ∃ sig, Ed25519.sign "mysecret" "hello" = .ok sig ∧
        Ed25519.verify "mysecret" sig "hello" = true :=
  ⟨by decide, ed25519_sign_verify_roundtrip "hello" "mysecret" (by decide)⟩

/-- C3 (code evaluation at the failing input): for the 33-character secret,
`sign` throws `bad seed size` — the stretch step never truncates a secret
already at 32 or more characters, contradicting the utility's own header
comment ("take the first 32 bytes as the seed") — and `verify` can only
return invalid, whatever the signature and message. -/
theorem ed25519_secret_over_32_errors :
    secret33.length = 33 ∧
    Ed25519.sign secret33 "x" = .error "bad seed size" ∧
    ∀ sig msg, Ed25519.verify secret33 sig msg = false := by
  refine ⟨by decide, by rfl, fun sig msg => ?_⟩
  have h : naclFromSeed (encodeUTF8 (Ed25519.stretch secret33)) = .error "bad seed size" := by rfl
  simp [Ed25519.verify, h]

/-- C4 (counterexample): the claim promises a signed challenge response for
every bound credential, but with a bound 33-character credential the
signing step throws and the challenge is answered 500 with no signature in
the body. -/
theorem challenge_long_secret_cex :
    QQBotAdapter.handleVerification ⟨"app", secret33, true⟩ cexD4 =
      .ok ⟨500, .text "Internal server error"⟩ := by rfl

/-- C4 (amended): for a challenge whose `d` object carries truthy
`plain_token` and `event_ts` and whose bound credential stretches to
exactly 32 seed bytes, the response is 200 and its body echoes the original
`plain_token` value unchanged (type preserved) next to the signature that
`Ed25519.sign` computes over the concatenation
`String(event_ts) ++ String(plain_token)` — timestamp first — rendered as
lower-case hex. -/
theorem challenge_response_signature
    (cfg : QQBotConfig) (fs : List (String × Json))
    (hsec : ¬ cfg.secret = "")
    (hlen : (encodeUTF8 (Ed25519.stretch cfg.secret)).length = 32)
    (htok : ((Json.jobj fs).get "plain_token").truthy = true)
    (hts : ((Json.jobj fs).get "event_ts").truthy = true) :
    ∃ sig,
      Ed25519.sign cfg.secret
        (jsString ((Json.jobj fs).get "event_ts") ++ jsString ((Json.jobj fs).get "plain_token")) =
          .ok sig ∧
      QQBotAdapter.handleVerification cfg (.jobj fs) =
        .ok ⟨200, .json (.jobj
          [("plain_token", (Json.jobj fs).get "plain_token"), ("signature", .jstr sig)])⟩ ∧
      sig.data.all isLowerHexChar = true := by
  have hseed : naclFromSeed (encodeUTF8 (Ed25519.stretch cfg.secret)) =
      .ok ⟨encodeUTF8 (Ed25519.stretch cfg.secret), encodeUTF8 (Ed25519.stretch cfg.secret)⟩ := by
    simp [naclFromSeed, hlen]
  have hsig : Ed25519.sign cfg.secret
      (jsString ((Json.jobj fs).get "event_ts") ++ jsString ((Json.jobj fs).get "plain_token")) =
      .ok (bytesToHex (naclDetached
        (encodeUTF8 (jsString ((Json.jobj fs).get "event_ts") ++
          jsString ((Json.jobj fs).get "plain_token")))
        (encodeUTF8 (Ed25519.stretch cfg.secret)))) := by
    simp [Ed25519.sign, hseed]
  refine ⟨_, hsig, ?_, bytesToHex_lower _ (naclDetached_mem_lt _ _)⟩
  simp only [QQBotAdapter.handleVerification, Json.nullish, htok, hts, Bool.not_true,
    Bool.false_or, Bool.or_self, Bool.false_eq_true, if_false, if_neg hsec, hsig]

/-- C4 (witness): the concrete challenge with a string token and numeric
timestamp under the secret `mysecret`. -/
theorem challenge_response_signature_w :
    ∃ sig,
      Ed25519.sign "mysecret"
        (jsString ((Json.jobj cexD4fs).get "event_ts") ++
          jsString ((Json.jobj cexD4fs).get "plain_token")) = .ok sig ∧
      QQBotAdapter.handleVerification wCfg (.jobj cexD4fs) =
        .ok ⟨200, .json (.jobj
          [("plain_token", (Json.jobj cexD4fs).get "plain_token"), ("signature", .jstr sig)])⟩ ∧
      sig.data.all isLowerHexChar = true :=
  challenge_response_signature wCfg cexD4fs (by decide) (by decide) rfl rfl

/-- C5 (counterexample): the claim says a handshake missing a required
challenge field is answered with a client error (400), but when the
challenge object `d` itself is absent — so both required fields are absent —
the destructuring of `payload.d` throws and the catch answers the call 500
'Internal server error', not a 400. -/
theorem handshake_missing_d_cex :
    (Json.jobj [("op", .jnum 13)]).get "d" = .jundefined ∧
    QQBotAdapter.handleWebhook cexCfg cexReq5 = ⟨500, .text "Internal server error"⟩ ∧
    (QQBotAdapter.handleWebhook cexCfg cexReq5).status ≠ 400 :=
  ⟨rfl, rfl, by decide⟩

/-- C5 (amended): a handshake (OpCode 13) is answered identically whatever
the signature headers carry (no prior verification). When the challenge
object `d` is present, it is answered 400 whenever a required challenge
field is absent from it, and — the fields being present — 500 'Server
configuration error' whenever no credential is bound; but when `d` itself
is absent or null, the destructuring throws and the call is answered 500
'Internal server error' instead of the claimed client error. -/
theorem handshake_no_prior_verification :
    (∀ cfg body parsed ts1 sig1 ts2 sig2 payload,
      parsed = Except.ok payload → payload.nullish = false →
      (payload.get "op").isNum 13 = true →
      QQBotAdapter.handleWebhook cfg ⟨body, parsed, ts1, sig1⟩ =
        QQBotAdapter.handleWebhook cfg ⟨body, parsed, ts2, sig2⟩) ∧
    (∀ cfg req payload fs,
      req.parsed = Except.ok payload → payload.nullish = false →
      (payload.get "op").isNum 13 = true →
      payload.get "d" = .jobj fs →
      ((Json.jobj fs).get "plain_token" = .jundefined ∨ (Json.jobj fs).get "event_ts" = .jundefined) →
      QQBotAdapter.handleWebhook cfg req = ⟨400, .text "Bad request"⟩) ∧
    (∀ cfg req payload,
      req.parsed = Except.ok payload → payload.nullish = false →
      (payload.get "op").isNum 13 = true →
      (payload.get "d").nullish = false →
      ((payload.get "d").get "plain_token").truthy = true →
      ((payload.get "d").get "event_ts").truthy = true →
      cfg.secret = "" →
      QQBotAdapter.handleWebhook cfg req = ⟨500, .text "Server configuration error"⟩) ∧
    (∀ cfg req payload,
      req.parsed = Except.ok payload → payload.nullish = false →
      (payload.get "op").isNum 13 = true →
      (payload.get "d").nullish = true →
      QQBotAdapter.handleWebhook cfg req = ⟨500, .text "Internal server error"⟩) := by
  refine ⟨?_, ?_, ?_, ?_⟩
  · intro cfg body parsed ts1 sig1 ts2 sig2 payload hp hnn hop
    simp only [QQBotAdapter.handleWebhook, hp, hnn, hop, Bool.false_eq_true, if_false, if_true]
  · intro cfg req payload fs hp hnn hop hd habs
    have h400 : QQBotAdapter.handleVerification cfg (payload.get "d") =
        .ok ⟨400, .text "Bad request"⟩ := by
      rw [hd]
      have : (((Json.jobj fs).get "plain_token").truthy = false) ∨
          (((Json.jobj fs).get "event_ts").truthy = false) := by
        rcases habs with h | h <;> [left; right] <;> rw [h] <;> rfl
      simp only [QQBotAdapter.handleVerification, Json.nullish]
      rcases this with h | h <;> simp [h]
    simp only [QQBotAdapter.handleWebhook, hp, hnn, hop, if_true, h400]
    rfl
  · intro cfg req payload hp hnn hop hdn htok hts hsec
    have h500 : QQBotAdapter.handleVerification cfg (payload.get "d") =
        .ok ⟨500, .text "Server configuration error"⟩ := by
      simp only [QQBotAdapter.handleVerification, hdn, htok, hts, hsec, Bool.not_true,
        Bool.false_or, Bool.or_self, Bool.false_eq_true, if_false, if_true, if_pos rfl]
    simp only [QQBotAdapter.handleWebhook, hp, hnn, hop, if_true, h500]
    rfl
  · intro cfg req payload hp hnn hop hdn
    have herr : QQBotAdapter.handleVerification cfg (payload.get "d") = .error () := by
      simp [QQBotAdapter.handleVerification, hdn]
    simp only [QQBotAdapter.handleWebhook, hp, hnn, hop, if_true, herr]
    rfl

/-- C5 (witness): a concrete handshake missing `plain_token` is answered
400. -/
theorem handshake_no_prior_verification_w :
    QQBotAdapter.handleWebhook cexCfg wReq13miss = ⟨400, .text "Bad request"⟩ :=
  handshake_no_prior_verification.2.1 cexCfg wReq13miss
    (.jobj [("op", .jnum 13), ("d", .jobj [("event_ts", .jnum 1)])])
    [("event_ts", .jnum 1)] rfl rfl rfl rfl (Or.inl rfl)

/-- C6 (counterexample): the claim says malformed JSON is answered 400, but
for the one in-repository adapter (qqbot) a malformed body never reaches
the route's SyntaxError catch: the adapter catches its own parse error and
answers 500 'Internal server error', which the pipeline returns as-is (and
schedules no broadcast). -/
theorem qqbot_malformed_json_500_cex :
    (postHandler (qqbotPostInput cexCfg cexProxy cexReqBadJson 0 (fun _ => true)
      (fun _ => true))).response = ⟨500, .text "Internal server error"⟩ ∧
    (postHandler (qqbotPostInput cexCfg cexProxy cexReqBadJson 0 (fun _ => true)
      (fun _ => true))).response.status ≠ 400 ∧
    (postHandler (qqbotPostInput cexCfg cexProxy cexReqBadJson 0 (fun _ => true)
      (fun _ => true))).broadcast = none :=
  ⟨rfl, by decide, rfl⟩

/-- C6 (amended): every pipeline-stage failure of the POST handler maps to
its definite status and monitor label — unknown platform
400/InvalidPlatform, a raced lookup that timed out 500/DBTimeout
(distinguishable from a fast lookup settling to absent, 404/ProxyNotFound),
inactive record 403/ProxyInactive, platform mismatch 400/PlatformMismatch,
adapter construction failure 500/AdapterCreationFailed — and a
`SyntaxError` thrown out of the handling step is mapped to 400 'Invalid
JSON payload' by the catch block; for the qqbot platform, however,
malformed JSON never reaches that catch: the adapter converts its own parse
error into a 500 'Internal server error' response, which the endpoint
returns with no broadcast scheduled. -/
theorem post_pipeline_status_map :
    (∀ inp : PostInput, SUPPORTED_PLATFORMS.contains inp.platform = false →
      postHandler inp = ⟨⟨400, .text "Invalid platform"⟩, some .InvalidPlatform, none⟩) ∧
    (∀ inp : PostInput, SUPPORTED_PLATFORMS.contains inp.platform = true →
      inp.race = .timedOut →
      postHandler inp = ⟨⟨500, .text "Database timeout"⟩, some .DBTimeout, none⟩) ∧
    (∀ inp : PostInput, SUPPORTED_PLATFORMS.contains inp.platform = true →
      inp.race = .lookedUp none →
      postHandler inp = ⟨⟨404, .text "Proxy not found"⟩, some .ProxyNotFound, none⟩) ∧
    (∀ (inp : PostInput) (p : Proxy), SUPPORTED_PLATFORMS.contains inp.platform = true →
      inp.race = .lookedUp (some p) → p.active = false →
      postHandler inp = ⟨⟨403, .text "Proxy is inactive"⟩, some .ProxyInactive, none⟩) ∧
    (∀ (inp : PostInput) (p : Proxy), SUPPORTED_PLATFORMS.contains inp.platform = true →
      inp.race = .lookedUp (some p) → p.active = true → p.platform ≠ inp.platform →
      postHandler inp = ⟨⟨400, .text "Platform mismatch"⟩, some .PlatformMismatch, none⟩) ∧
    (∀ (inp : PostInput) (p : Proxy), SUPPORTED_PLATFORMS.contains inp.platform = true →
      inp.race = .lookedUp (some p) → p.active = true → p.platform = inp.platform →
      inp.mkAdapter p = none →
      postHandler inp = ⟨⟨500, .text "Failed to create adapter"⟩, some .AdapterCreationFailed, none⟩) ∧
    (∀ (inp : PostInput) (p : Proxy) (a : Adapter),
      SUPPORTED_PLATFORMS.contains inp.platform = true →
      inp.race = .lookedUp (some p) → p.active = true → p.platform = inp.platform →
      inp.mkAdapter p = some a → a.handle inp.req = .error .syntaxError →
      postHandler inp = ⟨⟨400, .text "Invalid JSON payload"⟩, some .CaughtError, none⟩) ∧
    (∀ (cfg : QQBotConfig) (proxy : Proxy) (req : Request) (now : Int)
      (cok dok : Nat → Bool),
      proxy.active = true → proxy.platform = "qqbot" → req.parsed = .error () →
      (postHandler (qqbotPostInput cfg proxy req now cok dok)).response =
        ⟨500, .text "Internal server error"⟩ ∧
      (postHandler (qqbotPostInput cfg proxy req now cok dok)).broadcast = none) := by
  refine ⟨postHandler_invalid_platform,
    postHandler_timeout,
    postHandler_not_found,
    postHandler_inactive,
    postHandler_mismatch,
    postHandler_adapter_failed,
    fun inp p a h hr ha hp hmk hh => postHandler_thrown inp p a .syntaxError h hr ha hp hmk hh,
    ?_⟩
  intro cfg proxy req now cok dok hact hplat hp
  rw [qqbotPost_reduce cfg proxy req now cok dok hact hplat]
  have hw : QQBotAdapter.handleWebhook cfg req = ⟨500, .text "Internal server error"⟩ := by
    simp [QQBotAdapter.handleWebhook, hp]
  rw [hw]
  exact ⟨rfl, rfl⟩

/-- C6 (witness): a hung lookup and a fast absent lookup at the same key
produce the two distinct outcomes, and a concrete malformed-JSON qqbot call
is answered the adapter's 500. -/
theorem post_pipeline_status_map_w :
    postHandler cexTimeoutInput = ⟨⟨500, .text "Database timeout"⟩, some .DBTimeout, none⟩ ∧
    postHandler cexAbsentInput = ⟨⟨404, .text "Proxy not found"⟩, some .ProxyNotFound, none⟩ ∧
    (postHandler (qqbotPostInput cexCfg cexProxy cexReqBadJson 0 (fun _ => true)
      (fun _ => true))).response = ⟨500, .text "Internal server error"⟩ :=
  ⟨post_pipeline_status_map.2.1 cexTimeoutInput (by decide) rfl,
   post_pipeline_status_map.2.2.1 cexAbsentInput (by decide) rfl,
   (post_pipeline_status_map.2.2.2.2.2.2.2 cexCfg cexProxy cexReqBadJson 0
     (fun _ => true) (fun _ => true) rfl rfl rfl).1⟩

/-- C7 (counterexample): the claim says a handshake always receives 200
with no broadcast, but a handshake whose challenge object carries no tokens
is answered 400 (no broadcast either). -/
theorem handshake_malformed_not_200_cex :
    (postHandler (qqbotPostInput cexCfg cexProxy cexReq7 0 (fun _ => true) (fun _ => true))).response =
      ⟨400, .text "Bad request"⟩ ∧
    (postHandler (qqbotPostInput cexCfg cexProxy cexReq7 0 (fun _ => true) (fun _ => true))).broadcast =
      none :=
  ⟨rfl, rfl⟩

/-- C7 (amended): over the qqbot pipeline, a broadcast is scheduled exactly
when the parsed body is a non-nullish payload whose `op` is the number 0
and the adapter answered 200; a *well-formed* handshake (OpCode 13, truthy
tokens, usable credential) is answered 200 with no broadcast scheduled; and
an unrecognized discriminator whose call skips or passes signature
verification is acknowledged (OpCode-12 ack, 200) with no broadcast
scheduled. -/
theorem broadcast_iff_dispatch (cfg : QQBotConfig) (proxy : Proxy) (req : Request)
    (now : Int) (cok dok : Nat → Bool)
    (hact : proxy.active = true) (hplat : proxy.platform = "qqbot") :
    ((postHandler (qqbotPostInput cfg proxy req now cok dok)).broadcast.isSome = true ↔
      (∃ payload, req.parsed = .ok payload ∧ payload.nullish = false ∧
        (payload.get "op").isNum 0 = true) ∧
      (QQBotAdapter.handleWebhook cfg req).status = 200) ∧
    (∀ payload, req.parsed = .ok payload → payload.nullish = false →
      (payload.get "op").isNum 13 = true → (payload.get "d").nullish = false →
      ((payload.get "d").get "plain_token").truthy = true →
      ((payload.get "d").get "event_ts").truthy = true →
      ¬ cfg.secret = "" → (encodeUTF8 (Ed25519.stretch cfg.secret)).length = 32 →
      (postHandler (qqbotPostInput cfg proxy req now cok dok)).response.status = 200 ∧
      (postHandler (qqbotPostInput cfg proxy req now cok dok)).broadcast = none) ∧
    (∀ payload k, req.parsed = .ok payload → payload.nullish = false →
      payload.get "op" = .jnum k → ¬ k = 0 → ¬ k = 13 →
      ((cfg.verifySignature && req.tsHeader != "" && req.sigHeader != "") = false ∨
        QQBotAdapter.verifySignature cfg req.body req.tsHeader req.sigHeader = true) →
      (postHandler (qqbotPostInput cfg proxy req now cok dok)).response =
        QQBotAdapter.createAckResponse ∧
      (postHandler (qqbotPostInput cfg proxy req now cok dok)).broadcast = none) := by
  rw [qqbotPost_reduce cfg proxy req now cok dok hact hplat]
  refine ⟨?_, ?_, ?_⟩
  · constructor
    · intro hbs
      by_cases hs : (QQBotAdapter.handleWebhook cfg req).status = 200
      · rw [if_pos hs] at hbs
        cases hp : req.parsed with
        | error e => rw [hp] at hbs; simp at hbs
        | ok payload =>
          by_cases hnn : payload.nullish = true
          · rw [hp] at hbs; simp [hnn] at hbs
          · by_cases h0 : (payload.get "op").isNum 0 = true
            · exact ⟨⟨payload, rfl, by simpa using hnn, h0⟩, hs⟩
            · rw [hp] at hbs; simp [hnn, h0] at hbs
      · rw [if_neg hs] at hbs; simp at hbs
    · rintro ⟨⟨payload, hp, hnn, h0⟩, hs⟩
      rw [if_pos hs, hp]
      simp [hnn, h0]
  · intro payload hp hnn hop13 hdn htok hts hsec hlen
    have hv := handleVerification_ok cfg (payload.get "d") hdn htok hts hsec hlen
    have hw : QQBotAdapter.handleWebhook cfg req = ⟨200, .json (.jobj
        [("plain_token", (payload.get "d").get "plain_token"),
         ("signature", .jstr (bytesToHex (naclDetached
           (encodeUTF8 (jsString ((payload.get "d").get "event_ts") ++
             jsString ((payload.get "d").get "plain_token")))
           (encodeUTF8 (Ed25519.stretch cfg.secret)))))])⟩ := by
      simp only [QQBotAdapter.handleWebhook, hp, hnn, hop13, Bool.false_eq_true, if_false,
        if_true, hv]
    rw [hw]
    simp [hp, hnn, Json.isNum_13_not_0 _ hop13]
  · intro payload k hp hnn hopk hk0 hk13 hver
    have h13 : (payload.get "op").isNum 13 = false := by
      rw [hopk]; simpa [Json.isNum] using hk13
    have h0 : (payload.get "op").isNum 0 = false := by
      rw [hopk]; simpa [Json.isNum] using hk0
    have hw : QQBotAdapter.handleWebhook cfg req = QQBotAdapter.createAckResponse := by
      simp only [QQBotAdapter.handleWebhook, hp, hnn, h13, h0, Bool.false_eq_true, if_false]
      rcases hver with hg | hv
      · simp [hg]
      · by_cases hg : (cfg.verifySignature && req.tsHeader != "" && req.sigHeader != "") = true
        · simp [hg, hv]
        · simp [show (cfg.verifySignature && req.tsHeader != "" && req.sigHeader != "") = false by
            simpa using hg]
    rw [hw]
    simp [hp, hnn, h0, QQBotAdapter.createAckResponse]

/-- C7 (witness): the concrete well-formed handshake is answered 200 and
schedules no broadcast. -/
theorem broadcast_iff_dispatch_w :
    (postHandler (qqbotPostInput wCfg cexProxy wReq13 0 (fun _ => true) (fun _ => true))).response.status = 200 ∧
    (postHandler (qqbotPostInput wCfg cexProxy wReq13 0 (fun _ => true) (fun _ => true))).broadcast = none :=
  (broadcast_iff_dispatch wCfg cexProxy wReq13 0 (fun _ => true) (fun _ => true) rfl rfl).2.1
    (.jobj [("op", .jnum 13), ("d", cexD4)]) rfl rfl rfl rfl (by decide) (by decide)
    (by decide) (by decide)

/-- C8: the synchronous response and monitor label of a POST call are
unchanged under any change of the broadcast side effects' outcomes (no
broadcast-stage failure reaches the already-returned response), and in the
background task itself, once the body parses and transforms, delivery to
the broadcast target is attempted even when every event-counter increment
attempt fails — the counter retry simply exhausts its three attempts
without success and the failure is dropped. -/
theorem broadcast_failures_not_escalated :
    (∀ (inp : PostInput) (cok' dok' : Nat → Bool),
      (postHandler { inp with counterOk := cok', deliverOk := dok' }).response =
        (postHandler inp).response ∧
      (postHandler { inp with counterOk := cok', deliverOk := dok' }).errKind =
        (postHandler inp).errKind) ∧
    (∀ (parsed : Except Unit Json) (now : Int) (cok dok : Nat → Bool)
      (tf : Int → Json → Except Unit WebhookEventData) (payload : Json),
      parsed = .ok payload → (∃ e, tf now payload = .ok e) →
      (broadcastEvent parsed now cok dok tf).deliveryAttempted = true ∧
      ((∀ i, cok i = false) →
        (broadcastEvent parsed now cok dok tf).counterAttempts = 3 ∧
        (broadcastEvent parsed now cok dok tf).counterSucceeded = false)) := by
  constructor
  · intro inp cok' dok'
    obtain ⟨plat, race, mk, req, now, cok, dok⟩ := inp
    exact postHandler_outcome_indep plat race mk req now cok dok cok' dok'
  · rintro parsed now cok dok tf payload rfl ⟨e, he⟩
    have hfail : (∀ i, cok i = false) → retryTrace 3 cok = (3, false) := by
      intro h
      simp [retryTrace, show List.range 3 = [0, 1, 2] from rfl, List.findIdx?, h]
    constructor
    · simp [broadcastEvent, he]
    · intro h
      simp [broadcastEvent, he, hfail h]

/-- C8 (witness): the concrete OpCode-0 payload with every counter attempt
failing still has its delivery attempted. -/
theorem broadcast_failures_not_escalated_w :
    (broadcastEvent (.ok cexBroadcastPayload) 0 (fun _ => false) (fun _ => true)
      QQBotAdapter.transform).deliveryAttempted = true ∧
    (broadcastEvent (.ok cexBroadcastPayload) 0 (fun _ => false) (fun _ => true)
      QQBotAdapter.transform).counterAttempts = 3 ∧
    (broadcastEvent (.ok cexBroadcastPayload) 0 (fun _ => false) (fun _ => true)
      QQBotAdapter.transform).counterSucceeded = false := by
  have h := broadcast_failures_not_escalated.2 (.ok cexBroadcastPayload) 0
    (fun _ => false) (fun _ => true) QQBotAdapter.transform cexBroadcastPayload rfl ⟨_, rfl⟩
  exact ⟨h.1, (h.2 (fun _ => rfl)).1, (h.2 (fun _ => rfl)).2⟩

/-- C9 (counterexample): the claim says `transform` is total over every
parser-accepted payload including those missing the discriminator, but on
an object without `op` (and on `null`) the unguarded `op.toString()`
destructuring throws. -/
theorem transform_missing_op_cex :
    QQBotAdapter.transform 0 (.jobj []) = .error () ∧
    QQBotAdapter.transform 0 (.jobj [("d", .jstr "x"), ("t", .jstr "MSG")]) = .error () ∧
    QQBotAdapter.transform 0 .jnull = .error () :=
  ⟨rfl, rfl, rfl⟩

/-- C9 (amended): `transform` is total over every parsed payload that is
not nullish and whose `op` field is present (not nullish): it returns a
canonical event without throwing, carrying the event content `d` — whatever
shape it has — in both the opaque `payload` field and the structured
catch-all `data.event_data`. -/
theorem transform_total_with_op (now : Int) (payload : Json)
    (h1 : payload.nullish = false) (h2 : (payload.get "op").nullish = false) :
    ∃ e, QQBotAdapter.transform now payload = .ok e ∧
      e.payload = payload.get "d" ∧
      e.data.get "event_data" = payload.get "d" ∧
      e.platform = "qqbot" := by
  simp only [QQBotAdapter.transform, h1, h2, Bool.false_eq_true, if_false]
  exact ⟨_, rfl, rfl, rfl, rfl⟩

/-- C9 (witness): a payload with an unrecognized extra field transforms
successfully and keeps `d` in the catch-all portion. -/
theorem transform_total_with_op_w :
    ∃ e, QQBotAdapter.transform 5 (.jobj [("op", .jnum 7), ("weird", .jstr "y"), ("d", .jstr "x")]) = .ok e ∧
      e.payload = (Json.jobj [("op", .jnum 7), ("weird", .jstr "y"), ("d", .jstr "x")]).get "d" ∧
      e.data.get "event_data" = (Json.jobj [("op", .jnum 7), ("weird", .jstr "y"), ("d", .jstr "x")]).get "d" ∧
      e.platform = "qqbot" :=
  transform_total_with_op 5 _ rfl rfl

/-! ## Pipeline stage lemmas -/

/-- C10: on the live-connection GET endpoint an absent routing record and
an inactive one produce the same 404 response, unlike the POST endpoint
which answers 404 for absent but 403 for inactive; and the GET path races
no timeout — the only way its response can read `Database timeout` is the
external Durable Object itself answering exactly that. -/
theorem get_absent_inactive_same :
    (∀ inp : GetInput, SUPPORTED_PLATFORMS.contains inp.platform = true →
      ["ws", "sse"].contains inp.connectionType = true →
      inp.lookup = none →
      getHandler inp = ⟨404, .text "Proxy not found or inactive"⟩) ∧
    (∀ (inp : GetInput) (p : Proxy), SUPPORTED_PLATFORMS.contains inp.platform = true →
      ["ws", "sse"].contains inp.connectionType = true →
      inp.lookup = some p → p.active = false →
      getHandler inp = ⟨404, .text "Proxy not found or inactive"⟩) ∧
    (∀ inp : GetInput, getHandler inp = ⟨500, .text "Database timeout"⟩ →
      inp.doFetch = .ok ⟨500, .text "Database timeout"⟩) ∧
    (∀ pinp : PostInput, SUPPORTED_PLATFORMS.contains pinp.platform = true →
      pinp.race = .lookedUp none →
      (postHandler pinp).response = ⟨404, .text "Proxy not found"⟩) ∧
    (∀ (pinp : PostInput) (p : Proxy), SUPPORTED_PLATFORMS.contains pinp.platform = true →
      pinp.race = .lookedUp (some p) → p.active = false →
      (postHandler pinp).response = ⟨403, .text "Proxy is inactive"⟩) := by
  refine ⟨?_, ?_, ?_, ?_, ?_⟩
  · intro inp h1 h2 h3
    have hm : inp.platform ∈ SUPPORTED_PLATFORMS := by simpa using h1
    have hc : inp.connectionType ∈ ["ws", "sse"] := by simpa using h2
    simp [getHandler, hm, hc, h3]
  · intro inp p h1 h2 h3 h4
    have hm : inp.platform ∈ SUPPORTED_PLATFORMS := by simpa using h1
    have hc : inp.connectionType ∈ ["ws", "sse"] := by simpa using h2
    simp [getHandler, hm, hc, h3, h4]
  · intro inp h
    unfold getHandler at h
    repeat' split at h
    all_goals simp at h
    rename_i r heq
    rw [heq]
    obtain ⟨st, bd⟩ := r
    simp_all
  · intro pinp h1 h2
    rw [postHandler_not_found pinp h1 h2]
  · intro pinp p h1 h2 h3
    rw [postHandler_inactive pinp p h1 h2 h3]

/-- C10 (witness): concrete absent and inactive GET calls produce the
identical 404 response. -/
theorem get_absent_inactive_same_w :
    getHandler cexGetAbsent = ⟨404, .text "Proxy not found or inactive"⟩ ∧
    getHandler cexGetInactive = ⟨404, .text "Proxy not found or inactive"⟩ :=
  ⟨get_absent_inactive_same.1 cexGetAbsent (by decide) (by decide) rfl,
   get_absent_inactive_same.2.1 cexGetInactive _ (by decide) (by decide) rfl rfl⟩
